import Mathlib

/-!
Verification of the data-quality-checkr rule engine and result logger.

This file is a shallow embedding of `src/data_quality_checker/main.py`
(`DataQualityChecker`), `src/data_quality_checker/connector/output_log.py`
(`DBConnector`) and the check-dispatch loop of
`src/data_quality_checker/cli.py` (`run_checks`).

Modelling conventions:
* A polars `Series` is a `List (Option α)`; `none` models a polars null.
* A polars `DataFrame` is an association list from column names to series.
* The polars primitives used by the code (`is_duplicated().sum()`,
  `null_count()`, `is_in(...).all()`) are embedded directly.  Polars
  `Series.all()` ignores null entries (its default `ignore_nulls=True`),
  and `is_in` maps a null input cell to a null output cell, so a null
  cell never falsifies an `is_in(...).all()` check; this is embedded
  faithfully below.
* The SQLite store is a list of records plus the next AUTOINCREMENT id
  (SQLite assigns ids 1, 2, 3, ...); a store-level I/O failure (the
  spec's `PersistenceError`) is modelled by a `writable` flag on the
  store: `log` fails exactly when the store is not writable.
* `datetime.now().isoformat()` is modelled by passing the current wall
  clock reading as an explicit `now : String` argument.
* `json.dumps` / `json.loads` on the `additional_params` mapping are
  embedded as an executable encoder and parser for the JSON fragment
  the program produces (objects whose values are strings or lists of
  strings), including Python's `ensure_ascii` escaping.
-/

namespace DQC

/-- A single apostrophe, used to spell the error message of
`_validate_column_exists` verbatim. -/
def sq : String := ⟨['\x27']⟩

/-- Left brace character (JSON object opener). -/
def lbrace : Char := '\x7b'

/-- Right brace character (JSON object closer). -/
def rbrace : Char := '\x7d'

/-- A polars series: a column of cells where `none` models null. -/
abbrev Series (α : Type) := List (Option α)

/-- A polars DataFrame: named columns, each holding a series.  The row-count
invariant is irrelevant to the checks, which each read a single column. -/
structure Dataset (α : Type) where
  cols : List (String × Series α)
deriving DecidableEq

/-- `df.columns` of polars: the list of column names. -/
def Dataset.columns {α : Type} (df : Dataset α) : List String :=
  df.cols.map Prod.fst

/-- `df[column]`: the series stored under `column` (the checks only read a
column after validating that it exists). -/
def Dataset.getCol {α : Type} (df : Dataset α) (column : String) : Series α :=
  match df.cols.find? (fun p => p.fst == column) with
  | some p => p.snd
  | none => []

/-- Polars `Series.null_count()`: the number of null cells. -/
def Series.nullCount {α : Type} (xs : Series α) : Nat :=
  xs.countP (fun x => x.isNone)

/-- Polars `Series.is_duplicated()`: marks every cell whose value occurs
more than once in the series; two nulls count as duplicates of each
other. -/
def Series.isDuplicated {α : Type} [DecidableEq α] (xs : Series α) : List Bool :=
  xs.map (fun x => decide (2 ≤ xs.count x))

/-- Polars `.sum()` over a boolean series: the number of `true` entries. -/
def boolSum (bs : List Bool) : Nat := bs.countP id

/-- Polars `Series.is_in(haystack)`: elementwise membership.  A null cell
yields a null result cell; a non-null cell is compared against the
non-null elements of the haystack. -/
def Series.isIn {α : Type} [DecidableEq α] (xs : Series α) (haystack : List (Option α)) :
    List (Option Bool) :=
  xs.map (fun x => x.map (fun v => decide (some v ∈ haystack)))

/-- Polars `Series.all()` with its default `ignore_nulls=True`: null
entries count as passing; the empty series yields `true`. -/
def optAll (bs : List (Option Bool)) : Bool :=
  bs.all (fun b => b.getD true)

/-- The pure outcome of `is_column_unique`:
`df[column].is_duplicated().sum() == 0` (main.py line 39). -/
def uniqueOutcome {α : Type} [DecidableEq α] (xs : Series α) : Bool :=
  boolSum (Series.isDuplicated xs) == 0

/-- The pure outcome of `is_column_not_null`:
`df[column].null_count() == 0` (main.py line 62). -/
def notNullOutcome {α : Type} (xs : Series α) : Bool :=
  Series.nullCount xs == 0

/-- The pure outcome of `is_column_enum`:
`df[column].is_in(accepted_values).all()` (main.py line 91); the accepted
values are a Python `List[str]`, so the haystack has no nulls. -/
def enumOutcome (xs : Series String) (accepted_values : List String) : Bool :=
  optAll (Series.isIn xs (accepted_values.map some))

/-- The pure outcome of `are_tables_referential_integral`:
`child_keys.is_in(parent_keys).all()` where
`parent_keys = parent_df[parent_key].to_list()` (main.py lines 127-129);
the Python list keeps nulls as `None`, hence the `Series` haystack. -/
def refIntOutcome {α : Type} [DecidableEq α] (parentKeys childKeys : Series α) : Bool :=
  optAll (Series.isIn childKeys parentKeys)

/-- A value of the `additional_params` mapping: the program only ever
stores strings (column names) and lists of strings (accepted values). -/
inductive PValue where
  | str (s : String)
  | strList (ss : List String)
deriving DecidableEq

/-- The `additional_params` mapping: an insertion-ordered dict from
string keys to values, as Python preserves dict insertion order. -/
abbrev Params := List (String × PValue)

/-- One row of the `validation_log` table (output_log.py lines 26-32):
auto-increment id, ISO timestamp, check type, result stored as the
integer `int(result)`, and a nullable serialized params blob. -/
structure LogRecord where
  id : Nat
  timestamp : String
  check_type : String
  result : Nat
  additional_params : Option String
deriving DecidableEq

/-- The SQLite store behind `DBConnector`: the logged rows, the next
AUTOINCREMENT id, and a writability flag modelling store-level I/O
failure (`PersistenceError` in the spec). -/
structure DBConnector where
  records : List LogRecord
  nextId : Nat
  writable : Bool
deriving DecidableEq

/-- A fresh store as produced by `DBConnector.__init__`: empty table,
SQLite AUTOINCREMENT starts at 1. -/
def DBConnector.empty : DBConnector :=
  { records := [], nextId := 1, writable := true }

/-- Store-level failure surfaced by a `log` call on a broken store. -/
inductive PersistenceError where
  | ioFailure
deriving DecidableEq

/-- Errors surfaced by the checker methods: the `ValueError` raised by
`_validate_column_exists`, or a propagated store failure. -/
inductive CheckError where
  | valueError (msg : String)
  | persistence (e : PersistenceError)
deriving DecidableEq

/-- The message of the `ValueError` raised by `_validate_column_exists`
(main.py line 22): it names the column but carries no indication of
which DataFrame (target, parent or child) lacked it. -/
def columnNotFoundMsg (column : String) : String :=
  "Column " ++ sq ++ column ++ sq ++ " not found in DataFrame"

/-- `_validate_column_exists` (main.py lines 19-22): raise `ValueError`
when the column is not among `df.columns`. -/
def validateColumnExists {α : Type} (df : Dataset α) (column : String) :
    Except CheckError Unit :=
  if column ∈ df.columns then .ok () else .error (.valueError (columnNotFoundMsg column))

/-- Lowercase-hex `\uXXXX` escape emitted by Python's `ensure_ascii`
JSON encoder. -/
def uEscape (n : Nat) : List Char :=
  ['\\', 'u', Nat.digitChar (n / 4096 % 16), Nat.digitChar (n / 256 % 16),
   Nat.digitChar (n / 16 % 16), Nat.digitChar (n % 16)]

/-- Python `json.dumps` escaping of one character with its default
`ensure_ascii=True`: the double quote and backslash get two-character
escapes, the five control characters with short names get those, every
other character outside the printable ASCII range `0x20..0x7e` becomes
`\uXXXX` (a surrogate pair for code points above `0xffff`), and
printable ASCII is emitted verbatim. -/
def escapeChar (c : Char) : List Char :=
  if c = '"' then ['\\', '"']
  else if c = '\\' then ['\\', '\\']
  else if c = '\x08' then ['\\', 'b']
  else if c = '\x0c' then ['\\', 'f']
  else if c = '\n' then ['\\', 'n']
  else if c = '\r' then ['\\', 'r']
  else if c = '\t' then ['\\', 't']
  else if c.toNat < 0x20 ∨ 0x7f ≤ c.toNat then
    if c.toNat < 0x10000 then uEscape c.toNat
    else uEscape (0xd800 + (c.toNat - 0x10000) / 0x400) ++
         uEscape (0xdc00 + (c.toNat - 0x10000) % 0x400)
  else [c]

/-- JSON-escape a whole string. -/
def escapeString (s : String) : List Char :=
  s.data.flatMap escapeChar

/-- A JSON string literal: escaped contents between double quotes. -/
def quoteString (s : String) : List Char :=
  '"' :: escapeString s ++ ['"']

/-- Join JSON string literals with the `", "` item separator that
`json.dumps` uses by default. -/
def joinQuoted : List String → List Char
  | [] => []
  | [s] => quoteString s
  | s :: ss => quoteString s ++ ',' :: ' ' :: joinQuoted ss

/-- Serialize one params value the way `json.dumps` renders it. -/
def dumpValue : PValue → List Char
  | .str s => quoteString s
  | .strList ss => '[' :: joinQuoted ss ++ [']']

/-- Serialize one key/value entry with the `": "` key separator that
`json.dumps` uses by default. -/
def entryChars (e : String × PValue) : List Char :=
  quoteString e.fst ++ ':' :: ' ' :: dumpValue e.snd

/-- Join serialized entries with the `", "` item separator. -/
def joinEntries : Params → List Char
  | [] => []
  | [e] => entryChars e
  | e :: es => entryChars e ++ ',' :: ' ' :: joinEntries es

/-- `json.dumps` on an `additional_params` mapping: the entries in dict
insertion order between braces. -/
def jsonDumps (ps : Params) : String :=
  ⟨lbrace :: joinEntries ps ++ [rbrace]⟩

/-- The numeric value of a hexadecimal digit, as accepted by `json.loads`
inside `\uXXXX` escapes. -/
def hexVal? (c : Char) : Option Nat :=
  if '0' ≤ c ∧ c ≤ '9' then some (c.toNat - '0'.toNat)
  else if 'a' ≤ c ∧ c ≤ 'f' then some (c.toNat - 'a'.toNat + 10)
  else if 'A' ≤ c ∧ c ≤ 'F' then some (c.toNat - 'A'.toNat + 10)
  else none

/-- Decode the low half of a `\\uXXXX` surrogate pair: expects another
`\\uXXXX` escape holding a low surrogate and combines it with the high
surrogate `n` into one code point, as `json.loads` does. -/
def parseLowSurrogate (rec : List Char → Option (List Char × List Char)) (n : Nat) :
    List Char → Option (List Char × List Char)
  | s1 :: s2 :: e1 :: e2 :: e3 :: e4 :: rest =>
    if s1 = '\\' ∧ s2 = 'u' then
      match hexVal? e1, hexVal? e2, hexVal? e3, hexVal? e4 with
      | some g1, some g2, some g3, some g4 =>
        let m := g1 * 4096 + g2 * 256 + g3 * 16 + g4
        if 0xdc00 ≤ m ∧ m < 0xe000 then
          (rec rest).map (fun p =>
            (Char.ofNat (0x10000 + (n - 0xd800) * 0x400 + (m - 0xdc00)) :: p.1, p.2))
        else none
      | _, _, _, _ => none
    else none
  | _ => none

/-- Decode a `\\uXXXX` escape (the `\\u` already consumed): reads four
hex digits; a high surrogate must be followed by a low surrogate. -/
def parseUEsc (rec : List Char → Option (List Char × List Char)) :
    List Char → Option (List Char × List Char)
  | d1 :: d2 :: d3 :: d4 :: rest =>
    match hexVal? d1, hexVal? d2, hexVal? d3, hexVal? d4 with
    | some h1, some h2, some h3, some h4 =>
      let n := h1 * 4096 + h2 * 256 + h3 * 16 + h4
      if 0xd800 ≤ n ∧ n < 0xdc00 then parseLowSurrogate rec n rest
      else (rec rest).map (fun p => (Char.ofNat n :: p.1, p.2))
    | _, _, _, _ => none
  | _ => none

/-- Decode a backslash escape (the backslash already consumed): the
short escapes of `json.loads`, or a `\\uXXXX` escape. -/
def parseEsc (rec : List Char → Option (List Char × List Char)) :
    List Char → Option (List Char × List Char)
  | [] => none
  | e :: rest =>
    if e = '"' then (rec rest).map (fun p => ('"' :: p.1, p.2))
    else if e = '\\' then (rec rest).map (fun p => ('\\' :: p.1, p.2))
    else if e = '/' then (rec rest).map (fun p => ('/' :: p.1, p.2))
    else if e = 'b' then (rec rest).map (fun p => ('\x08' :: p.1, p.2))
    else if e = 'f' then (rec rest).map (fun p => ('\x0c' :: p.1, p.2))
    else if e = 'n' then (rec rest).map (fun p => ('\n' :: p.1, p.2))
    else if e = 'r' then (rec rest).map (fun p => ('\r' :: p.1, p.2))
    else if e = 't' then (rec rest).map (fun p => ('\t' :: p.1, p.2))
    else if e = 'u' then parseUEsc rec rest
    else none

/-- One step of `json.loads` string decoding: a closing quote ends the
literal, a backslash starts an escape, a raw control character is
rejected (strict mode), anything else is taken verbatim. -/
def parseStep (rec : List Char → Option (List Char × List Char)) :
    List Char → Option (List Char × List Char)
  | [] => none
  | c :: rest =>
    if c = '"' then some ([], rest)
    else if c = '\\' then parseEsc rec rest
    else if c.toNat < 0x20 then none
    else (rec rest).map (fun p => (c :: p.1, p.2))

/-- `json.loads` on the body of a string literal (the opening quote
already consumed): returns the decoded characters and the input after
the closing quote.  The fuel bounds the number of decoded characters;
callers pass the input length plus one, which always suffices. -/
def parseStringBody : Nat → List Char → Option (List Char × List Char)
  | 0, _ => none
  | fuel + 1, cs => parseStep (parseStringBody fuel) cs

/-- Parse the items of a non-empty JSON array of strings in the exact
shape `json.dumps` emits (items separated by `", "`, closed by `]`);
the fuel bounds the number of items. -/
def parseStrItems : Nat → List Char → Option (List String × List Char)
  | 0, _ => none
  | fuel + 1, cs =>
    match cs with
    | [] => none
    | c :: rest =>
      if c = '"' then
        match parseStringBody (rest.length + 1) rest with
        | none => none
        | some (s, r1) =>
          match r1 with
          | [] => none
          | t :: r2 =>
            if t = ']' then some ([⟨s⟩], r2)
            else if t = ',' then
              match r2 with
              | [] => none
              | u :: r3 =>
                if u = ' ' then (parseStrItems fuel r3).map (fun p => (⟨s⟩ :: p.1, p.2))
                else none
            else none
      else none

/-- Parse one JSON value of the fragment the program writes: a string
literal or an array of strings. -/
def parseValue (cs : List Char) : Option (PValue × List Char) :=
  match cs with
  | [] => none
  | c :: rest =>
    if c = '"' then (parseStringBody (rest.length + 1) rest).map (fun p => (.str ⟨p.1⟩, p.2))
    else if c = '[' then
      match rest with
      | [] => none
      | d :: rest2 =>
        if d = ']' then some (.strList [], rest2)
        else (parseStrItems rest.length rest).map (fun p => (.strList p.1, p.2))
    else none

/-- Parse the entries of a non-empty JSON object in the exact shape
`json.dumps` emits (`"key": value` entries separated by `", "`, closed
by the right brace); the fuel bounds the number of entries. -/
def parseEntries : Nat → List Char → Option (Params × List Char)
  | 0, _ => none
  | fuel + 1, cs =>
    match cs with
    | [] => none
    | c :: rest =>
      if c = '"' then
        match parseStringBody (rest.length + 1) rest with
        | none => none
        | some (k, r1) =>
          match r1 with
          | c1 :: c2 :: r2 =>
            if c1 = ':' ∧ c2 = ' ' then
              match parseValue r2 with
              | none => none
              | some (v, r3) =>
                match r3 with
                | [] => none
                | t :: r4 =>
                  if t = rbrace then some ([(⟨k⟩, v)], r4)
                  else if t = ',' then
                    match r4 with
                    | [] => none
                    | u :: r5 =>
                      if u = ' ' then (parseEntries fuel r5).map (fun p => ((⟨k⟩, v) :: p.1, p.2))
                      else none
                  else none
            else none
          | _ => none
      else none

/-- `json.loads` on a serialized `additional_params` blob: a JSON object
whose values are strings or lists of strings, in the canonical spacing
`json.dumps` produces. -/
def jsonLoads (s : String) : Option Params :=
  match s.data with
  | [] => none
  | c :: rest =>
    if c = lbrace then
      match rest with
      | [] => none
      | d :: rest2 =>
        if d = rbrace then (if rest2 = [] then some [] else none)
        else
          match parseEntries rest.length rest with
          | some (ps, r) => if r = [] then some ps else none
          | none => none
    else none

/-- `params_json = json.dumps(additional_params) if additional_params
else None` (output_log.py line 50): Python truthiness maps both `None`
and the empty dict to `None`. -/
def paramsJson (p : Option Params) : Option String :=
  match p with
  | none => none
  | some ps => if ps.isEmpty then none else some (jsonDumps ps)

/-- The INSERT of `DBConnector.log` (output_log.py lines 51-63): append
one row stamped with the current time, carrying `int(result)` and the
serialized params blob, under the next AUTOINCREMENT id. -/
def DBConnector.append (db : DBConnector) (now check_type : String) (result : Bool)
    (additional_params : Option Params) : DBConnector :=
  { records := db.records ++
      [{ id := db.nextId, timestamp := now, check_type := check_type,
         result := if result then 1 else 0,
         additional_params := paramsJson additional_params }],
    nextId := db.nextId + 1,
    writable := db.writable }

/-- `DBConnector.log` (output_log.py lines 36-63): performs the INSERT on
a working store and surfaces a store-level failure otherwise. -/
def DBConnector.log (db : DBConnector) (now check_type : String) (result : Bool)
    (additional_params : Option Params) : Except PersistenceError DBConnector :=
  if db.writable then .ok (db.append now check_type result additional_params)
  else .error .ioFailure

/-- Insert a record into a list that is sorted by id. -/
def insertById (r : LogRecord) : List LogRecord → List LogRecord
  | [] => [r]
  | x :: xs => if r.id ≤ x.id then r :: x :: xs else x :: insertById r xs

/-- Sort records by id ascending (insertion sort). -/
def sortById (rs : List LogRecord) : List LogRecord :=
  rs.foldr insertById []

/-- The `SELECT ... ORDER BY id` of `print_all_logs` (output_log.py
lines 67-72): all rows ordered by identifier ascending. -/
def DBConnector.fetchAll (db : DBConnector) : List LogRecord :=
  sortById db.records

/-- `DataQualityChecker.is_column_unique` (main.py lines 24-45):
validate the column, compute `is_duplicated().sum() == 0`, log the
result, return it. -/
def is_column_unique {α : Type} [DecidableEq α] (db : DBConnector) (now : String)
    (df : Dataset α) (column : String) : Except CheckError (Bool × DBConnector) :=
  match validateColumnExists df column with
  | .error e => .error e
  | .ok _ =>
    let result := uniqueOutcome (df.getCol column)
    match db.log now "unique" result (some [("column", .str column)]) with
    | .ok db2 => .ok (result, db2)
    | .error e => .error (.persistence e)

/-- `DataQualityChecker.is_column_not_null` (main.py lines 47-68):
validate the column, compute `null_count() == 0`, log the result,
return it. -/
def is_column_not_null {α : Type} [DecidableEq α] (db : DBConnector) (now : String)
    (df : Dataset α) (column : String) : Except CheckError (Bool × DBConnector) :=
  match validateColumnExists df column with
  | .error e => .error e
  | .ok _ =>
    let result := notNullOutcome (df.getCol column)
    match db.log now "not_null" result (some [("column", .str column)]) with
    | .ok db2 => .ok (result, db2)
    | .error e => .error (.persistence e)

/-- `DataQualityChecker.is_column_enum` (main.py lines 70-100):
validate the column, compute `is_in(accepted_values).all()`, log the
result together with the accepted values, return it. -/
def is_column_enum (db : DBConnector) (now : String) (df : Dataset String)
    (column : String) (accepted_values : List String) :
    Except CheckError (Bool × DBConnector) :=
  match validateColumnExists df column with
  | .error e => .error e
  | .ok _ =>
    let result := enumOutcome (df.getCol column) accepted_values
    match db.log now "accepted_values" result
        (some [("column", .str column), ("accepted_values", .strList accepted_values)]) with
    | .ok db2 => .ok (result, db2)
    | .error e => .error (.persistence e)

/-- `DataQualityChecker.are_tables_referential_integral` (main.py lines
102-139): validate the parent key column then the child key column,
compute `child_keys.is_in(parent_keys).all()`, log the result, return
it. -/
def are_tables_referential_integral {α : Type} [DecidableEq α] (db : DBConnector)
    (now : String) (parent_df child_df : Dataset α) (parent_key child_key : String) :
    Except CheckError (Bool × DBConnector) :=
  match validateColumnExists parent_df parent_key with
  | .error e => .error e
  | .ok _ =>
    match validateColumnExists child_df child_key with
    | .error e => .error e
    | .ok _ =>
      let parent_keys := parent_df.getCol parent_key
      let result := refIntOutcome parent_keys (child_df.getCol child_key)
      match db.log now "referential_integrity" result
          (some [("parent_key", .str parent_key), ("child_key", .str child_key)]) with
      | .ok db2 => .ok (result, db2)
      | .error e => .error (.persistence e)

/-- One entry of the YAML `checks` list as `run_checks` reads it:
`check["type"]`, `check.get("column", "")` and `check.get("values", [])`
(cli.py lines 88-96). -/
structure CheckCfg where
  ctype : String
  column : String
  values : List String
deriving DecidableEq

/-- The diagnostic `run_checks` prints for an unrecognized check type
(cli.py line 99). -/
def diagMsg (t : String) : String :=
  "  Unknown check type: " ++ t ++ ", skipping"

/-- Whether `run_checks` recognizes the check type (cli.py lines
91-97). -/
def isKnownCheck (ck : CheckCfg) : Bool :=
  ck.ctype == "not_null" || ck.ctype == "unique" || ck.ctype == "accepted_values"

/-- The dispatch of `run_checks` on `check["type"]` (cli.py lines
91-100): runs the matching checker method and names the check kind, or
yields nothing for an unrecognized type. -/
def dispatchCheck (db : DBConnector) (now : String) (df : Dataset String) (ck : CheckCfg) :
    Option (Except CheckError (Bool × DBConnector) × String) :=
  if ck.ctype = "not_null" then some (is_column_not_null db now df ck.column, "not_null")
  else if ck.ctype = "unique" then some (is_column_unique db now df ck.column, "unique")
  else if ck.ctype = "accepted_values" then
    some (is_column_enum db now df ck.column ck.values, "accepted_values")
  else none

/-- The per-check loop of `run_checks` (cli.py lines 87-103): dispatch
each entry on its type, collect `(check_type, column, status)` rows for
recognized entries, print a diagnostic and skip unrecognized entries,
thread the log store through the checker calls, and propagate any
checker error. -/
def runChecksLoop (now : String) (df : Dataset String) :
    DBConnector → List CheckCfg →
    Except CheckError (List (String × String × String) × DBConnector × List String)
  | db, [] => .ok ([], db, [])
  | db, ck :: rest =>
    match dispatchCheck db now df ck with
    | some (res, kind) =>
      match res with
      | .error e => .error e
      | .ok (passed, db2) =>
        (runChecksLoop now df db2 rest).map (fun r =>
          ((kind, ck.column, if passed then "PASS" else "FAIL") :: r.1, r.2.1, r.2.2))
    | none =>
      (runChecksLoop now df db rest).map (fun r => (r.1, r.2.1, diagMsg ck.ctype :: r.2.2))

/-- `run_checks` (cli.py lines 69-117) after the data file and store are
opened: run the loop and compute `all(r[2] == "PASS" for r in results)`;
also returns the result rows, the final store and the printed
diagnostics, which the Python function exposes through its side
effects. -/
def run_checks (db : DBConnector) (now : String) (df : Dataset String)
    (checks : List CheckCfg) :
    Except CheckError (Bool × List (String × String × String) × DBConnector × List String) :=
  (runChecksLoop now df db checks).map (fun r =>
    (r.1.all (fun row => row.2.2 == "PASS"), r))

end DQC

/-! ### Round trip of the JSON encoding of `additional_params` -/

namespace DQC
theorem hexVal_digitChar : ∀ n, n < 16 → hexVal? (Nat.digitChar n) = some n := by decide

theorem char_valid (c : Char) : c.toNat < 0xd800 ∨ (0xdfff < c.toNat ∧ c.toNat < 0x110000) := c.valid

theorem parseStep_bs (rec : List Char → Option (List Char × List Char)) (rest : List Char) :
    parseStep rec ('\\' :: rest) = parseEsc rec rest := rfl

theorem parseEsc_u (rec : List Char → Option (List Char × List Char)) (rest : List Char) :
    parseEsc rec ('u' :: rest) = parseUEsc rec rest := rfl

theorem parseUEsc_digits (rec : List Char → Option (List Char × List Char)) (n : Nat)
    (h16 : n < 0x10000) (rest : List Char) :
    parseUEsc rec (Nat.digitChar (n / 4096 % 16) :: Nat.digitChar (n / 256 % 16) ::
      Nat.digitChar (n / 16 % 16) :: Nat.digitChar (n % 16) :: rest) =
      if 0xd800 ≤ n ∧ n < 0xdc00 then parseLowSurrogate rec n rest
      else (rec rest).map (fun p => (Char.ofNat n :: p.1, p.2)) := by
  have e1 := hexVal_digitChar (n / 4096 % 16) (by omega)
  have e2 := hexVal_digitChar (n / 256 % 16) (by omega)
  have e3 := hexVal_digitChar (n / 16 % 16) (by omega)
  have e4 := hexVal_digitChar (n % 16) (by omega)
  have hn4 : n / 4096 % 16 * 4096 + n / 256 % 16 * 256 + n / 16 % 16 * 16 + n % 16 = n := by omega
  simp only [parseUEsc, e1, e2, e3, e4, hn4]

theorem parseLowSurrogate_digits (rec : List Char → Option (List Char × List Char)) (n m : Nat)
    (h16 : m < 0x10000) (rest : List Char) :
    parseLowSurrogate rec n ('\\' :: 'u' :: Nat.digitChar (m / 4096 % 16) ::
      Nat.digitChar (m / 256 % 16) :: Nat.digitChar (m / 16 % 16) :: Nat.digitChar (m % 16) :: rest) =
      if 0xdc00 ≤ m ∧ m < 0xe000 then
        (rec rest).map (fun p =>
          (Char.ofNat (0x10000 + (n - 0xd800) * 0x400 + (m - 0xdc00)) :: p.1, p.2))
      else none := by
  have g1 := hexVal_digitChar (m / 4096 % 16) (by omega)
  have g2 := hexVal_digitChar (m / 256 % 16) (by omega)
  have g3 := hexVal_digitChar (m / 16 % 16) (by omega)
  have g4 := hexVal_digitChar (m % 16) (by omega)
  have hm4 : m / 4096 % 16 * 4096 + m / 256 % 16 * 256 + m / 16 % 16 * 16 + m % 16 = m := by omega
  simp only [parseLowSurrogate, g1, g2, g3, g4, hm4]
  simp

theorem psb_uEscape (f : Nat) (n : Nat) (h16 : n < 0x10000) (hns : ¬ (0xd800 ≤ n ∧ n < 0xdc00))
    (rest : List Char) :
    parseStringBody (f + 1) (uEscape n ++ rest) =
      (parseStringBody f rest).map (fun p => (Char.ofNat n :: p.1, p.2)) := by
  show parseStep (parseStringBody f) _ = _
  simp only [uEscape, List.cons_append, List.nil_append]
  rw [parseStep_bs, parseEsc_u, parseUEsc_digits _ _ h16, if_neg hns]

theorem psb_surrogate (f : Nat) (t : Nat) (h1 : 0x10000 ≤ t) (h2 : t < 0x110000)
    (rest : List Char) :
    parseStringBody (f + 1)
        (uEscape (0xd800 + (t - 0x10000) / 0x400) ++
          (uEscape (0xdc00 + (t - 0x10000) % 0x400) ++ rest)) =
      (parseStringBody f rest).map (fun p => (Char.ofNat t :: p.1, p.2)) := by
  generalize hn : 0xd800 + (t - 0x10000) / 0x400 = n
  generalize hm : 0xdc00 + (t - 0x10000) % 0x400 = m
  have hnb : n < 0x10000 := by omega
  have hmb : m < 0x10000 := by omega
  have hhi : 0xd800 ≤ n ∧ n < 0xdc00 := by omega
  have hlo : 0xdc00 ≤ m ∧ m < 0xe000 := by omega
  have hcomb : 0x10000 + (n - 0xd800) * 0x400 + (m - 0xdc00) = t := by omega
  show parseStep (parseStringBody f) _ = _
  simp only [uEscape, List.cons_append, List.nil_append]
  rw [parseStep_bs, parseEsc_u, parseUEsc_digits _ _ hnb, if_pos hhi,
    parseLowSurrogate_digits _ _ _ hmb, if_pos hlo, hcomb]
theorem psb_plain (f : Nat) (c : Char) (rest : List Char) (h1 : ¬ c = '"') (h2 : ¬ c = '\\')
    (h3 : ¬ c.toNat < 0x20) :
    parseStringBody (f + 1) (c :: rest) =
      (parseStringBody f rest).map (fun p => (c :: p.1, p.2)) := by
  show parseStep (parseStringBody f) (c :: rest) = _
  simp [parseStep, h1, h2, h3]

theorem psb_escapeChar (f : Nat) (c : Char) (rest : List Char) :
    parseStringBody (f + 1) (escapeChar c ++ rest) =
      (parseStringBody f rest).map (fun p => (c :: p.1, p.2)) := by
  by_cases h1 : c = '"'
  · subst h1; rfl
  by_cases h2 : c = '\\'
  · subst h2; rfl
  by_cases h3 : c = '\x08'
  · subst h3; rfl
  by_cases h4 : c = '\x0c'
  · subst h4; rfl
  by_cases h5 : c = '\n'
  · subst h5; rfl
  by_cases h6 : c = '\r'
  · subst h6; rfl
  by_cases h7 : c = '\t'
  · subst h7; rfl
  by_cases h8 : c.toNat < 0x20 ∨ 0x7f ≤ c.toNat
  · have hesc : escapeChar c =
        if c.toNat < 0x10000 then uEscape c.toNat
        else uEscape (0xd800 + (c.toNat - 0x10000) / 0x400) ++
             uEscape (0xdc00 + (c.toNat - 0x10000) % 0x400) := by
      simp [escapeChar, h1, h2, h3, h4, h5, h6, h7, h8]
    by_cases h9 : c.toNat < 0x10000
    · rw [hesc, if_pos h9,
        psb_uEscape f c.toNat h9 (by rcases char_valid c with h | h <;> omega) rest,
        Char.ofNat_toNat]
    · have hv := char_valid c
      rw [hesc, if_neg h9, List.append_assoc,
        psb_surrogate f c.toNat (by omega) (by omega) rest, Char.ofNat_toNat]
  · have hesc : escapeChar c = [c] := by
      simp [escapeChar, h1, h2, h3, h4, h5, h6, h7, h8]
    rw [hesc]
    exact psb_plain f c rest h1 h2 (by omega)

theorem psb_flatMap : ∀ (cs : List Char) (rest : List Char) (f : Nat), cs.length + 1 ≤ f →
    parseStringBody f (cs.flatMap escapeChar ++ '"' :: rest) = some (cs, rest)
  | [], rest, f, hf => by
    obtain ⟨g, rfl⟩ : ∃ g, f = g + 1 := ⟨f - 1, by omega⟩
    rfl
  | c :: cs, rest, f, hf => by
    obtain ⟨g, rfl⟩ : ∃ g, f = g + 1 := ⟨f - 1, by omega⟩
    rw [List.flatMap_cons, List.append_assoc, psb_escapeChar,
      psb_flatMap cs rest g (by simp at hf; omega)]
    rfl
theorem escapeChar_len_pos (c : Char) : 1 ≤ (escapeChar c).length := by
  unfold escapeChar uEscape
  repeat' split
  all_goals simp

theorem esc_len (cs : List Char) : cs.length ≤ (cs.flatMap escapeChar).length := by
  induction cs with
  | nil => simp
  | cons c cs ih =>
    have := escapeChar_len_pos c
    simp only [List.flatMap_cons, List.length_append, List.length_cons]
    omega

theorem psb_quote (s : String) (rest : List Char) (f : Nat) (hf : s.data.length + 1 ≤ f) :
    parseStringBody f (escapeString s ++ '"' :: rest) = some (s.data, rest) :=
  psb_flatMap s.data rest f hf

theorem joinQuoted_len : ∀ ss : List String, ss.length ≤ (joinQuoted ss).length
  | [] => by simp [joinQuoted]
  | [s] => by simp [joinQuoted, quoteString]
  | s :: s' :: ss => by
    have ih := joinQuoted_len (s' :: ss)
    simp only [joinQuoted, quoteString, List.length_append, List.length_cons] at *
    omega

theorem joinQuoted_head (s : String) (ss : List String) :
    ∃ t, joinQuoted (s :: ss) = '"' :: t := by
  cases ss <;> simp [joinQuoted, quoteString]

theorem parseStrItems_join : ∀ (ss : List String) (s : String) (rest : List Char) (fuel : Nat),
    ss.length + 1 ≤ fuel →
    parseStrItems fuel (joinQuoted (s :: ss) ++ ']' :: rest) = some (s :: ss, rest)
  | [], s, rest, fuel, hf => by
    obtain ⟨g, rfl⟩ : ∃ g, fuel = g + 1 := ⟨fuel - 1, by omega⟩
    have hlen : s.data.length + 1 ≤ (escapeString s ++ '"' :: ']' :: rest).length + 1 := by
      have := esc_len s.data
      simp only [escapeString, List.length_append, List.length_cons] at *
      omega
    simp only [joinQuoted, quoteString, List.cons_append, List.append_assoc,
      List.singleton_append, List.nil_append, parseStrItems, if_true]
    rw [psb_quote s (']' :: rest) _ hlen]
    rfl
  | s' :: ss, s, rest, fuel, hf => by
    obtain ⟨g, rfl⟩ : ∃ g, fuel = g + 1 := ⟨fuel - 1, by omega⟩
    have hlen : s.data.length + 1 ≤
        (escapeString s ++ '"' :: ',' :: ' ' :: (joinQuoted (s' :: ss) ++ ']' :: rest)).length + 1 := by
      have := esc_len s.data
      simp only [escapeString, List.length_append, List.length_cons] at *
      omega
    have ih := parseStrItems_join ss s' rest g (by simp at hf; omega)
    simp only [joinQuoted, quoteString, List.cons_append, List.append_assoc,
      List.singleton_append, List.nil_append, parseStrItems, if_true]
    rw [psb_quote s (',' :: ' ' :: (joinQuoted (s' :: ss) ++ ']' :: rest)) _ hlen]
    simp only [ih]
    rfl
theorem parseValue_dump (v : PValue) (rest : List Char) :
    parseValue (dumpValue v ++ rest) = some (v, rest) := by
  cases v with
  | str s =>
    have hlen : s.data.length + 1 ≤ (escapeString s ++ '"' :: rest).length + 1 := by
      have := esc_len s.data
      simp only [escapeString, List.length_append, List.length_cons] at *
      omega
    simp only [dumpValue, quoteString, List.cons_append, List.append_assoc,
      List.singleton_append, List.nil_append, parseValue, if_true]
    rw [psb_quote s rest _ hlen]
    rfl
  | strList ss =>
    cases ss with
    | nil => rfl
    | cons s ss =>
      obtain ⟨t, ht⟩ := joinQuoted_head s ss
      have hjoin := parseStrItems_join ss s rest
        ((joinQuoted (s :: ss) ++ ']' :: rest).length)
        (by have := joinQuoted_len (s :: ss); simp only [List.length_append,
          List.length_cons] at *; omega)
      simp only [dumpValue, List.cons_append, List.append_assoc, List.singleton_append,
        List.nil_append, parseValue, if_true]
      rw [ht]
      simp only [← ht, hjoin]
      simp [ht]
theorem joinEntries_len : ∀ ps : Params, ps.length ≤ (joinEntries ps).length
  | [] => by simp [joinEntries]
  | [e] => by simp [joinEntries, entryChars, quoteString]
  | e :: e' :: ps => by
    have ih := joinEntries_len (e' :: ps)
    simp only [joinEntries, entryChars, quoteString, List.length_append,
      List.length_cons] at *
    omega

theorem joinEntries_head (e : String × PValue) (ps : Params) :
    ∃ t, joinEntries (e :: ps) = '"' :: t := by
  cases ps <;> simp [joinEntries, entryChars, quoteString]

theorem parseEntries_join : ∀ (ps : Params) (e : String × PValue) (rest : List Char) (fuel : Nat),
    ps.length + 1 ≤ fuel →
    parseEntries fuel (joinEntries (e :: ps) ++ rbrace :: rest) = some (e :: ps, rest)
  | [], e, rest, fuel, hf => by
    obtain ⟨g, rfl⟩ : ∃ g, fuel = g + 1 := ⟨fuel - 1, by omega⟩
    have hlen : e.1.data.length + 1 ≤
        (escapeString e.1 ++ '"' :: ':' :: ' ' :: (dumpValue e.2 ++ rbrace :: rest)).length + 1 := by
      have := esc_len e.1.data
      simp only [escapeString, List.length_append, List.length_cons] at *
      omega
    simp only [joinEntries, entryChars, quoteString, List.cons_append, List.append_assoc,
      List.singleton_append, List.nil_append, parseEntries, if_true]
    rw [psb_quote e.1 (':' :: ' ' :: (dumpValue e.2 ++ rbrace :: rest)) _ hlen]
    simp only [parseValue_dump e.2 (rbrace :: rest)]
    simp

  | e' :: ps, e, rest, fuel, hf => by
    obtain ⟨g, rfl⟩ : ∃ g, fuel = g + 1 := ⟨fuel - 1, by omega⟩
    have hlen : e.1.data.length + 1 ≤
        (escapeString e.1 ++ '"' :: ':' :: ' ' ::
          (dumpValue e.2 ++ ',' :: ' ' :: (joinEntries (e' :: ps) ++ rbrace :: rest))).length + 1 := by
      have := esc_len e.1.data
      simp only [escapeString, List.length_append, List.length_cons] at *
      omega
    have ih := parseEntries_join ps e' rest g (by simp at hf; omega)
    simp only [joinEntries, entryChars, quoteString, List.cons_append, List.append_assoc,
      List.singleton_append, List.nil_append, parseEntries, if_true]
    rw [psb_quote e.1 (':' :: ' ' ::
      (dumpValue e.2 ++ ',' :: ' ' :: (joinEntries (e' :: ps) ++ rbrace :: rest))) _ hlen]
    simp only [parseValue_dump e.2 (',' :: ' ' :: (joinEntries (e' :: ps) ++ rbrace :: rest))]
    simp only [ih]
    simp [rbrace]

theorem jsonLoads_jsonDumps (ps : Params) : jsonLoads (jsonDumps ps) = some ps := by
  cases ps with
  | nil => rfl
  | cons e ps =>
    obtain ⟨t, ht⟩ := joinEntries_head e ps
    have hj := parseEntries_join ps e []
      ((joinEntries (e :: ps) ++ [rbrace]).length)
      (by have := joinEntries_len (e :: ps); simp only [List.length_append,
        List.length_cons] at *; omega)
    show jsonLoads ⟨lbrace :: joinEntries (e :: ps) ++ [rbrace]⟩ = _
    simp only [jsonLoads, List.cons_append, if_true]
    rw [ht]
    simp only [← ht]
    have hne : ¬ ('"' = rbrace) := by decide
    have : joinEntries (e :: ps) ++ [rbrace] = joinEntries (e :: ps) ++ rbrace :: [] := rfl
    simp only [this] at hj
    simp [ht, hne, hj, lbrace, rbrace] at *
    simp [hj]
end DQC

/-! ### Characterizations of the pure outcomes and the checker methods -/

namespace DQC

theorem uniqueOutcome_iff {α : Type} [DecidableEq α] (xs : Series α) :
    uniqueOutcome xs = true ↔ ∀ x ∈ xs, xs.count x ≤ 1 := by
  unfold uniqueOutcome boolSum Series.isDuplicated
  rw [beq_iff_eq, List.countP_map, List.countP_eq_zero]
  constructor
  · intro h x hx
    have := h x hx
    simp only [Function.comp, id, decide_eq_true_eq] at this
    omega
  · intro h x hx
    have := h x hx
    simp only [Function.comp, id, decide_eq_true_eq]
    omega

theorem notNullOutcome_iff {α : Type} (xs : Series α) :
    notNullOutcome xs = true ↔ ∀ x ∈ xs, x ≠ none := by
  unfold notNullOutcome Series.nullCount
  rw [beq_iff_eq, List.countP_eq_zero]
  constructor
  · intro h x hx
    have := h x hx
    simpa [Option.isNone_iff_eq_none] using this
  · intro h x hx
    simpa [Option.isNone_iff_eq_none] using h x hx

theorem optAll_isIn_iff {α : Type} [DecidableEq α] (xs : Series α) (hay : List (Option α)) :
    optAll (Series.isIn xs hay) = true ↔ ∀ x ∈ xs, ∀ v, x = some v → some v ∈ hay := by
  unfold optAll Series.isIn
  rw [List.all_eq_true]
  constructor
  · intro h x hx v hv
    have hh := h _ (List.mem_map_of_mem _ hx)
    subst hv
    simpa using hh
  · intro h b hb
    obtain ⟨x, hx, rfl⟩ := List.mem_map.mp hb
    cases x with
    | none => rfl
    | some v => simpa using h _ hx v rfl

theorem enumOutcome_iff (xs : Series String) (A : List String) :
    enumOutcome xs A = true ↔ ∀ x ∈ xs, ∀ v, x = some v → v ∈ A := by
  rw [enumOutcome, optAll_isIn_iff]
  constructor
  · intro h x hx v hv
    have := h x hx v hv
    simpa using this
  · intro h x hx v hv
    simpa using h x hx v hv

theorem refIntOutcome_iff {α : Type} [DecidableEq α] (parentKeys childKeys : Series α) :
    refIntOutcome parentKeys childKeys = true ↔
      ∀ x ∈ childKeys, ∀ v, x = some v → some v ∈ parentKeys := by
  rw [refIntOutcome, optAll_isIn_iff]

theorem validateColumnExists_ok {α : Type} (df : Dataset α) (c : String)
    (hc : c ∈ df.columns) : validateColumnExists df c = .ok () := if_pos hc

theorem validateColumnExists_err {α : Type} (df : Dataset α) (c : String)
    (hc : c ∉ df.columns) :
    validateColumnExists df c = .error (.valueError (columnNotFoundMsg c)) := if_neg hc

theorem is_column_unique_eq {α : Type} [DecidableEq α] (db : DBConnector) (now : String)
    (df : Dataset α) (c : String) (hc : c ∈ df.columns) :
    is_column_unique db now df c =
      if db.writable then
        .ok (uniqueOutcome (df.getCol c),
          db.append now "unique" (uniqueOutcome (df.getCol c)) (some [("column", .str c)]))
      else .error (.persistence .ioFailure) := by
  unfold is_column_unique DBConnector.log
  rw [validateColumnExists_ok df c hc]
  by_cases hw : db.writable <;> simp [hw]

theorem is_column_unique_err {α : Type} [DecidableEq α] (db : DBConnector) (now : String)
    (df : Dataset α) (c : String) (hc : c ∉ df.columns) :
    is_column_unique db now df c = .error (.valueError (columnNotFoundMsg c)) := by
  unfold is_column_unique
  rw [validateColumnExists_err df c hc]

theorem is_column_not_null_eq {α : Type} [DecidableEq α] (db : DBConnector) (now : String)
    (df : Dataset α) (c : String) (hc : c ∈ df.columns) :
    is_column_not_null db now df c =
      if db.writable then
        .ok (notNullOutcome (df.getCol c),
          db.append now "not_null" (notNullOutcome (df.getCol c)) (some [("column", .str c)]))
      else .error (.persistence .ioFailure) := by
  unfold is_column_not_null DBConnector.log
  rw [validateColumnExists_ok df c hc]
  by_cases hw : db.writable <;> simp [hw]

theorem is_column_not_null_err {α : Type} [DecidableEq α] (db : DBConnector) (now : String)
    (df : Dataset α) (c : String) (hc : c ∉ df.columns) :
    is_column_not_null db now df c = .error (.valueError (columnNotFoundMsg c)) := by
  unfold is_column_not_null
  rw [validateColumnExists_err df c hc]

theorem is_column_enum_eq (db : DBConnector) (now : String) (df : Dataset String)
    (c : String) (A : List String) (hc : c ∈ df.columns) :
    is_column_enum db now df c A =
      if db.writable then
        .ok (enumOutcome (df.getCol c) A,
          db.append now "accepted_values" (enumOutcome (df.getCol c) A)
            (some [("column", .str c), ("accepted_values", .strList A)]))
      else .error (.persistence .ioFailure) := by
  unfold is_column_enum DBConnector.log
  rw [validateColumnExists_ok df c hc]
  by_cases hw : db.writable <;> simp [hw]

theorem is_column_enum_err (db : DBConnector) (now : String) (df : Dataset String)
    (c : String) (A : List String) (hc : c ∉ df.columns) :
    is_column_enum db now df c A = .error (.valueError (columnNotFoundMsg c)) := by
  unfold is_column_enum
  rw [validateColumnExists_err df c hc]

theorem are_tables_referential_integral_eq {α : Type} [DecidableEq α] (db : DBConnector)
    (now : String) (pdf cdf : Dataset α) (pk ck : String)
    (hp : pk ∈ pdf.columns) (hc : ck ∈ cdf.columns) :
    are_tables_referential_integral db now pdf cdf pk ck =
      if db.writable then
        .ok (refIntOutcome (pdf.getCol pk) (cdf.getCol ck),
          db.append now "referential_integrity" (refIntOutcome (pdf.getCol pk) (cdf.getCol ck))
            (some [("parent_key", .str pk), ("child_key", .str ck)]))
      else .error (.persistence .ioFailure) := by
  unfold are_tables_referential_integral DBConnector.log
  rw [validateColumnExists_ok pdf pk hp, validateColumnExists_ok cdf ck hc]
  by_cases hw : db.writable <;> simp [hw]

theorem are_tables_referential_integral_err_parent {α : Type} [DecidableEq α]
    (db : DBConnector) (now : String) (pdf cdf : Dataset α) (pk ck : String)
    (hp : pk ∉ pdf.columns) :
    are_tables_referential_integral db now pdf cdf pk ck =
      .error (.valueError (columnNotFoundMsg pk)) := by
  unfold are_tables_referential_integral
  rw [validateColumnExists_err pdf pk hp]

theorem are_tables_referential_integral_err_child {α : Type} [DecidableEq α]
    (db : DBConnector) (now : String) (pdf cdf : Dataset α) (pk ck : String)
    (hp : pk ∈ pdf.columns) (hc : ck ∉ cdf.columns) :
    are_tables_referential_integral db now pdf cdf pk ck =
      .error (.valueError (columnNotFoundMsg ck)) := by
  unfold are_tables_referential_integral
  rw [validateColumnExists_ok pdf pk hp, validateColumnExists_err cdf ck hc]

end DQC

/-! ### Rule-engine claims -/

namespace DQC

/-- The acceptance predicate exactly as the spec words it, for
comparison with the code: every value in the column, nulls included,
is literally a member of the allowed set. -/
def specAcceptedValuesOk (xs : Series String) (A : List String) : Prop :=
  ∀ x ∈ xs, ∃ a ∈ A, x = some a

/-- The referential-integrity predicate exactly as the claim words it,
for comparison with the code: the set of values in the child key
column, nulls included, is a subset of the parent key values. -/
def specChildKeysSubset {α : Type} (childKeys parentKeys : Series α) : Prop :=
  ∀ x ∈ childKeys, x ∈ parentKeys

/-- C5: for every Dataset and column present in it, `evaluate_not_null`
(implemented as `is_column_not_null`) returns true iff the column
contains zero null values, and returns true when the column has zero
rows. -/
theorem not_null_verdict {α : Type} [DecidableEq α] (db : DBConnector) (now : String)
    (df : Dataset α) (c : String) (hw : db.writable = true) (hc : c ∈ df.columns) :
    ((is_column_not_null db now df c).map Prod.fst = .ok true ↔
      ∀ x ∈ df.getCol c, x ≠ none)
    ∧ (df.getCol c = [] → (is_column_not_null db now df c).map Prod.fst = .ok true) := by
  rw [is_column_not_null_eq db now df c hc, hw]
  simp only [if_true, Except.map, Except.ok.injEq]
  constructor
  · exact notNullOutcome_iff (df.getCol c)
  · intro h
    rw [h]
    rfl

/-- C5 witness: the theorem applied to a two-row integer column holding
a null. -/
theorem not_null_verdict_witness :
    ((is_column_not_null DBConnector.empty "t"
        (⟨[("name", [some 1, none])]⟩ : Dataset Nat) "name").map Prod.fst = .ok true ↔
      ∀ x ∈ (⟨[("name", [some 1, none])]⟩ : Dataset Nat).getCol "name", x ≠ none)
    ∧ ((⟨[("name", [some 1, none])]⟩ : Dataset Nat).getCol "name" = [] →
      (is_column_not_null DBConnector.empty "t"
        (⟨[("name", [some 1, none])]⟩ : Dataset Nat) "name").map Prod.fst = .ok true) :=
  not_null_verdict DBConnector.empty "t" _ "name" rfl (by decide)

/-- C3: for every Dataset and column present in it, `evaluate_unique`
(implemented as `is_column_unique`) returns true iff no value of the
column occurs more than once in the multiset of its cells, where two
nulls count as duplicates of each other (the cells are `Option` values
and `none` cells enter the same count); a column holding two or more
nulls therefore fails, and a zero-row column passes. -/
theorem unique_verdict {α : Type} [DecidableEq α] (db : DBConnector) (now : String)
    (df : Dataset α) (c : String) (hw : db.writable = true) (hc : c ∈ df.columns) :
    ((is_column_unique db now df c).map Prod.fst = .ok true ↔
      ∀ x ∈ df.getCol c, (df.getCol c).count x ≤ 1)
    ∧ (2 ≤ (df.getCol c).count (none : Option α) →
      (is_column_unique db now df c).map Prod.fst = .ok false)
    ∧ (df.getCol c = [] → (is_column_unique db now df c).map Prod.fst = .ok true) := by
  rw [is_column_unique_eq db now df c hc, hw]
  simp only [if_true, Except.map, Except.ok.injEq]
  refine ⟨uniqueOutcome_iff (df.getCol c), ?_, ?_⟩
  · intro h2
    cases ho : uniqueOutcome (df.getCol c) with
    | false => rfl
    | true =>
      exfalso
      have hmem : (none : Option α) ∈ df.getCol c := by
        have : 0 < (df.getCol c).count (none : Option α) := by omega
        exact List.count_pos_iff.mp this
      have := (uniqueOutcome_iff (df.getCol c)).mp ho none hmem
      omega
  · intro h
    rw [h]
    rfl

/-- C3 witness: the theorem applied to a column with a duplicated pair
of nulls. -/
theorem unique_verdict_witness :
    ((is_column_unique DBConnector.empty "t"
        (⟨[("id", [some 1, none, none])]⟩ : Dataset Nat) "id").map Prod.fst = .ok true ↔
      ∀ x ∈ (⟨[("id", [some 1, none, none])]⟩ : Dataset Nat).getCol "id",
        ((⟨[("id", [some 1, none, none])]⟩ : Dataset Nat).getCol "id").count x ≤ 1)
    ∧ (2 ≤ ((⟨[("id", [some 1, none, none])]⟩ : Dataset Nat).getCol "id").count (none : Option Nat) →
      (is_column_unique DBConnector.empty "t"
        (⟨[("id", [some 1, none, none])]⟩ : Dataset Nat) "id").map Prod.fst = .ok false)
    ∧ ((⟨[("id", [some 1, none, none])]⟩ : Dataset Nat).getCol "id" = [] →
      (is_column_unique DBConnector.empty "t"
        (⟨[("id", [some 1, none, none])]⟩ : Dataset Nat) "id").map Prod.fst = .ok true) :=
  unique_verdict DBConnector.empty "t" _ "id" rfl (by decide)


/-- C1 (amended): for every Dataset and column present in it,
`evaluate_accepted_values` (implemented as `is_column_enum`) returns
true iff every non-null value of the column is a member of the allowed
list; null cells are ignored by the membership test, and an empty
allowed list yields false exactly when the column holds at least one
non-null value. -/
theorem accepted_values_verdict (db : DBConnector) (now : String) (df : Dataset String)
    (c : String) (A : List String) (hw : db.writable = true) (hc : c ∈ df.columns) :
    ((is_column_enum db now df c A).map Prod.fst = .ok true ↔
      ∀ x ∈ df.getCol c, ∀ v, x = some v → v ∈ A)
    ∧ ((A = [] ∧ ∃ x ∈ df.getCol c, x ≠ none) →
      (is_column_enum db now df c A).map Prod.fst = .ok false) := by
  rw [is_column_enum_eq db now df c A hc, hw]
  simp only [if_true, Except.map, Except.ok.injEq]
  refine ⟨enumOutcome_iff (df.getCol c) A, ?_⟩
  rintro ⟨hA, x, hx, hxn⟩
  cases ho : enumOutcome (df.getCol c) A with
  | false => rfl
  | true =>
    exfalso
    obtain ⟨v, rfl⟩ := Option.ne_none_iff_exists'.mp hxn
    have := (enumOutcome_iff (df.getCol c) A).mp ho _ hx v rfl
    rw [hA] at this
    simp at this

/-- C1 witness: the theorem applied to a string column and a two-element
allowed list. -/
theorem accepted_values_verdict_witness :
    ((is_column_enum DBConnector.empty "t" ⟨[("status", [some "a", some "c"])]⟩
        "status" ["a", "b"]).map Prod.fst = .ok true ↔
      ∀ x ∈ (⟨[("status", [some "a", some "c"])]⟩ : Dataset String).getCol "status",
        ∀ v, x = some v → v ∈ ["a", "b"])
    ∧ ((["a", "b"] = ([] : List String) ∧
        ∃ x ∈ (⟨[("status", [some "a", some "c"])]⟩ : Dataset String).getCol "status",
          x ≠ none) →
      (is_column_enum DBConnector.empty "t" ⟨[("status", [some "a", some "c"])]⟩
        "status" ["a", "b"]).map Prod.fst = .ok false) :=
  accepted_values_verdict DBConnector.empty "t" _ "status" ["a", "b"] rfl (by decide)

/-- C1 counterexample: a column holding a single null checked against
the non-empty allowed list `["a"]`.  The claim requires the check to
fail because null is not an element of the allowed set, but the code
passes it: polars `is_in` yields null for a null cell and `all()`
ignores nulls. -/
theorem accepted_values_null_counterexample :
    (is_column_enum DBConnector.empty "t0" ⟨[("c", [none])]⟩ "c" ["a"]).map Prod.fst = .ok true
    ∧ ¬ specAcceptedValuesOk [none] ["a"] := by
  constructor
  · rfl
  · intro h
    obtain ⟨a, _, ha⟩ := h none (by simp)
    cases ha

/-- C4 (amended): for every parent/child pair with key columns present,
`evaluate_referential_integrity` (implemented as
`are_tables_referential_integral`) returns true iff every non-null
child key value appears among the parent key values (set membership,
so duplicate parent keys are irrelevant); null child keys are ignored,
and an empty child column passes regardless of the parent. -/
theorem referential_integrity_verdict {α : Type} [DecidableEq α] (db : DBConnector)
    (now : String) (pdf cdf : Dataset α) (pk ck : String) (hw : db.writable = true)
    (hp : pk ∈ pdf.columns) (hc : ck ∈ cdf.columns) :
    ((are_tables_referential_integral db now pdf cdf pk ck).map Prod.fst = .ok true ↔
      ∀ x ∈ cdf.getCol ck, ∀ v, x = some v → some v ∈ pdf.getCol pk)
    ∧ (cdf.getCol ck = [] →
      (are_tables_referential_integral db now pdf cdf pk ck).map Prod.fst = .ok true) := by
  rw [are_tables_referential_integral_eq db now pdf cdf pk ck hp hc, hw]
  simp only [if_true, Except.map, Except.ok.injEq]
  refine ⟨refIntOutcome_iff (pdf.getCol pk) (cdf.getCol ck), ?_⟩
  intro h
  rw [h]
  rfl

/-- C4 witness: the theorem applied to the spec's Scenario D pair
(parent ids 1,2; child references 1,3). -/
theorem referential_integrity_verdict_witness :
    ((are_tables_referential_integral DBConnector.empty "t"
        (⟨[("id", [some 1, some 2])]⟩ : Dataset Nat) ⟨[("parent_id", [some 1, some 3])]⟩
        "id" "parent_id").map Prod.fst = .ok true ↔
      ∀ x ∈ (⟨[("parent_id", [some 1, some 3])]⟩ : Dataset Nat).getCol "parent_id",
        ∀ v, x = some v → some v ∈ (⟨[("id", [some 1, some 2])]⟩ : Dataset Nat).getCol "id")
    ∧ ((⟨[("parent_id", [some 1, some 3])]⟩ : Dataset Nat).getCol "parent_id" = [] →
      (are_tables_referential_integral DBConnector.empty "t"
        (⟨[("id", [some 1, some 2])]⟩ : Dataset Nat) ⟨[("parent_id", [some 1, some 3])]⟩
        "id" "parent_id").map Prod.fst = .ok true) :=
  referential_integrity_verdict DBConnector.empty "t" _ _ "id" "parent_id" rfl
    (by decide) (by decide)

/-- C4 counterexample: child key column holding a single null against a
parent whose keys are `[1]`.  Under the claim's set-subset reading the
null child key is a value missing from the parent, so the check should
fail; the code passes it because `is_in(...).all()` ignores the null
cell. -/
theorem referential_integrity_null_counterexample :
    (are_tables_referential_integral DBConnector.empty "t0"
      (⟨[("p", [some 1])]⟩ : Dataset Nat) ⟨[("k", [none])]⟩ "p" "k").map Prod.fst = .ok true
    ∧ ¬ specChildKeysSubset ([none] : Series Nat) [some 1] := by
  constructor
  · rfl
  · intro h
    have := h none (by simp)
    simp at this


/-- C2 (amended): each rule-engine operation referencing a column absent
from the relevant Dataset fails with the `ValueError` carrying
`Column '<name>' not found in DataFrame` — identifying the missing
column but not the Dataset role — before any evaluation or log write:
the error is produced for any store state (no `writable` hypothesis is
needed), and the failed call returns only the error, hence no verdict
boolean and no appended LogRecord.  For referential integrity the
parent key is validated first. -/
theorem column_not_found_aborts {α : Type} [DecidableEq α] (db : DBConnector) (now : String)
    (df pdf cdf : Dataset α) (dfS : Dataset String) (c cS pk ck : String) (A : List String) :
    (c ∉ df.columns →
      is_column_unique db now df c = .error (.valueError (columnNotFoundMsg c)))
    ∧ (c ∉ df.columns →
      is_column_not_null db now df c = .error (.valueError (columnNotFoundMsg c)))
    ∧ (cS ∉ dfS.columns →
      is_column_enum db now dfS cS A = .error (.valueError (columnNotFoundMsg cS)))
    ∧ (pk ∉ pdf.columns →
      are_tables_referential_integral db now pdf cdf pk ck =
        .error (.valueError (columnNotFoundMsg pk)))
    ∧ (pk ∈ pdf.columns → ck ∉ cdf.columns →
      are_tables_referential_integral db now pdf cdf pk ck =
        .error (.valueError (columnNotFoundMsg ck))) :=
  ⟨fun hc => is_column_unique_err db now df c hc,
   fun hc => is_column_not_null_err db now df c hc,
   fun hc => is_column_enum_err db now dfS cS A hc,
   fun hp => are_tables_referential_integral_err_parent db now pdf cdf pk ck hp,
   fun hp hc => are_tables_referential_integral_err_child db now pdf cdf pk ck hp hc⟩

/-- C2 witness: the theorem applied to concrete DataFrames lacking the
referenced columns, on a non-writable store (showing no log write is
attempted before the error). -/
theorem column_not_found_aborts_witness :
    is_column_unique ⟨[], 1, false⟩ "t" (⟨[("id", [some 1])]⟩ : Dataset Nat) "missing" =
      .error (.valueError (columnNotFoundMsg "missing"))
    ∧ is_column_not_null ⟨[], 1, false⟩ "t" (⟨[("id", [some 1])]⟩ : Dataset Nat) "missing" =
      .error (.valueError (columnNotFoundMsg "missing"))
    ∧ is_column_enum ⟨[], 1, false⟩ "t" ⟨[("status", [some "a"])]⟩ "missing" ["a"] =
      .error (.valueError (columnNotFoundMsg "missing"))
    ∧ are_tables_referential_integral ⟨[], 1, false⟩ "t"
        (⟨[("id", [some 1])]⟩ : Dataset Nat) ⟨[("parent_id", [some 1])]⟩ "missing" "parent_id" =
      .error (.valueError (columnNotFoundMsg "missing"))
    ∧ are_tables_referential_integral ⟨[], 1, false⟩ "t"
        (⟨[("id", [some 1])]⟩ : Dataset Nat) ⟨[("parent_id", [some 1])]⟩ "id" "missing" =
      .error (.valueError (columnNotFoundMsg "missing")) := by
  have h := column_not_found_aborts (α := Nat) ⟨[], 1, false⟩ "t"
    ⟨[("id", [some 1])]⟩ ⟨[("id", [some 1])]⟩ ⟨[("parent_id", [some 1])]⟩
    ⟨[("status", [some "a"])]⟩ "missing" "missing" "id" "missing" ["a"]
  exact ⟨h.1 (by decide), h.2.1 (by decide), h.2.2.1 (by decide),
    (column_not_found_aborts (α := Nat) ⟨[], 1, false⟩ "t" ⟨[("id", [some 1])]⟩
      ⟨[("id", [some 1])]⟩ ⟨[("parent_id", [some 1])]⟩ ⟨[("status", [some "a"])]⟩
      "missing" "missing" "missing" "parent_id" ["a"]).2.2.2.1 (by decide),
    h.2.2.2.2 (by decide) (by decide)⟩

/-- C2 counterexample for the role-identification part: a missing
parent key and a missing child key produce the very same error value
`ValueError("Column 'k' not found in DataFrame")`, so the error does
not identify the Dataset role (target / parent / child) as the claim
requires. -/
theorem column_error_role_counterexample :
    are_tables_referential_integral DBConnector.empty "t0"
        (⟨[("a", [some 1])]⟩ : Dataset Nat) ⟨[("k", [some 1])]⟩ "k" "k"
      = .error (.valueError (columnNotFoundMsg "k"))
    ∧ are_tables_referential_integral DBConnector.empty "t0"
        (⟨[("k", [some 1])]⟩ : Dataset Nat) ⟨[("a", [some 1])]⟩ "k" "k"
      = .error (.valueError (columnNotFoundMsg "k")) :=
  ⟨rfl, rfl⟩

/-- C8: every check call on valid columns factors as validate, then the
pure outcome, then the log write, then the return: the returned boolean
is the very outcome stored in the single appended LogRecord (whose
`result` field is `int(outcome)`), and when the store write fails the
call surfaces `PersistenceError` — a failure that can occur only after
validation has succeeded and with the outcome already computed, since
the appended record carries it. -/
theorem check_call_order {α : Type} [DecidableEq α] (db : DBConnector) (now : String)
    (df pdf cdf : Dataset α) (dfS : Dataset String) (c cS pk ck : String) (A : List String) :
    (c ∈ df.columns → is_column_unique db now df c =
      if db.writable then
        .ok (uniqueOutcome (df.getCol c),
          db.append now "unique" (uniqueOutcome (df.getCol c)) (some [("column", .str c)]))
      else .error (.persistence .ioFailure))
    ∧ (c ∈ df.columns → is_column_not_null db now df c =
      if db.writable then
        .ok (notNullOutcome (df.getCol c),
          db.append now "not_null" (notNullOutcome (df.getCol c)) (some [("column", .str c)]))
      else .error (.persistence .ioFailure))
    ∧ (cS ∈ dfS.columns → is_column_enum db now dfS cS A =
      if db.writable then
        .ok (enumOutcome (dfS.getCol cS) A,
          db.append now "accepted_values" (enumOutcome (dfS.getCol cS) A)
            (some [("column", .str cS), ("accepted_values", .strList A)]))
      else .error (.persistence .ioFailure))
    ∧ (pk ∈ pdf.columns → ck ∈ cdf.columns →
      are_tables_referential_integral db now pdf cdf pk ck =
      if db.writable then
        .ok (refIntOutcome (pdf.getCol pk) (cdf.getCol ck),
          db.append now "referential_integrity" (refIntOutcome (pdf.getCol pk) (cdf.getCol ck))
            (some [("parent_key", .str pk), ("child_key", .str ck)]))
      else .error (.persistence .ioFailure)) :=
  ⟨fun hc => is_column_unique_eq db now df c hc,
   fun hc => is_column_not_null_eq db now df c hc,
   fun hc => is_column_enum_eq db now dfS cS A hc,
   fun hp hc => are_tables_referential_integral_eq db now pdf cdf pk ck hp hc⟩

/-- C8 witness: the theorem applied to concrete single-column
DataFrames on the fresh (writable) store. -/
theorem check_call_order_witness :
    is_column_unique DBConnector.empty "t" (⟨[("id", [some 1, some 1])]⟩ : Dataset Nat) "id" =
      (if DBConnector.empty.writable then
        .ok (uniqueOutcome ((⟨[("id", [some 1, some 1])]⟩ : Dataset Nat).getCol "id"),
          DBConnector.empty.append "t" "unique"
            (uniqueOutcome ((⟨[("id", [some 1, some 1])]⟩ : Dataset Nat).getCol "id"))
            (some [("column", .str "id")]))
      else .error (.persistence .ioFailure))
    ∧ is_column_not_null DBConnector.empty "t" (⟨[("id", [some 1, some 1])]⟩ : Dataset Nat) "id" =
      (if DBConnector.empty.writable then
        .ok (notNullOutcome ((⟨[("id", [some 1, some 1])]⟩ : Dataset Nat).getCol "id"),
          DBConnector.empty.append "t" "not_null"
            (notNullOutcome ((⟨[("id", [some 1, some 1])]⟩ : Dataset Nat).getCol "id"))
            (some [("column", .str "id")]))
      else .error (.persistence .ioFailure))
    ∧ is_column_enum DBConnector.empty "t" ⟨[("status", [some "a"])]⟩ "status" ["a"] =
      (if DBConnector.empty.writable then
        .ok (enumOutcome ((⟨[("status", [some "a"])]⟩ : Dataset String).getCol "status") ["a"],
          DBConnector.empty.append "t" "accepted_values"
            (enumOutcome ((⟨[("status", [some "a"])]⟩ : Dataset String).getCol "status") ["a"])
            (some [("column", .str "status"), ("accepted_values", .strList ["a"])]))
      else .error (.persistence .ioFailure))
    ∧ are_tables_referential_integral DBConnector.empty "t"
        (⟨[("id", [some 1])]⟩ : Dataset Nat) ⟨[("parent_id", [some 1])]⟩ "id" "parent_id" =
      (if DBConnector.empty.writable then
        .ok (refIntOutcome ((⟨[("id", [some 1])]⟩ : Dataset Nat).getCol "id")
            ((⟨[("parent_id", [some 1])]⟩ : Dataset Nat).getCol "parent_id"),
          DBConnector.empty.append "t" "referential_integrity"
            (refIntOutcome ((⟨[("id", [some 1])]⟩ : Dataset Nat).getCol "id")
              ((⟨[("parent_id", [some 1])]⟩ : Dataset Nat).getCol "parent_id"))
            (some [("parent_key", .str "id"), ("child_key", .str "parent_id")]))
      else .error (.persistence .ioFailure)) := by
  have h := check_call_order (α := Nat) DBConnector.empty "t"
    ⟨[("id", [some 1, some 1])]⟩ ⟨[("id", [some 1])]⟩ ⟨[("parent_id", [some 1])]⟩
    ⟨[("status", [some "a"])]⟩ "id" "status" "id" "parent_id" ["a"]
  exact ⟨h.1 (by decide), h.2.1 (by decide), h.2.2.1 (by decide),
    h.2.2.2 (by decide) (by decide)⟩

end DQC

/-! ### Result-logger and orchestrator claims -/

namespace DQC

/-- One `log` call's inputs: timestamp reading, check kind, result and
optional params. -/
structure LogCall where
  timestamp : String
  check_type : String
  result : Bool
  additional_params : Option Params
deriving DecidableEq

/-- A sequence of `DBConnector.log` calls, threading the store. -/
def logAll (db : DBConnector) (calls : List LogCall) : Except PersistenceError DBConnector :=
  calls.foldlM (fun d k => d.log k.timestamp k.check_type k.result k.additional_params) db

/-- The record a `log` call writes when the store's next id is `i`. -/
def mkRecord (i : Nat) (k : LogCall) : LogRecord :=
  { id := i, timestamp := k.timestamp, check_type := k.check_type,
    result := if k.result then 1 else 0,
    additional_params := paramsJson k.additional_params }

/-- The records a sequence of calls writes, ids counting up from `i`. -/
def recordsFrom (i : Nat) : List LogCall → List LogRecord
  | [] => []
  | k :: ks => mkRecord i k :: recordsFrom (i + 1) ks

theorem exceptBind_ok {ε α β : Type} (a : α) (f : α → Except ε β) :
    (Except.ok a >>= f : Except ε β) = f a := rfl

theorem exceptMap_map {ε α β γ : Type} (x : Except ε α) (f : α → β) (g : β → γ) :
    (x.map f).map g = x.map (g ∘ f) := by cases x <;> rfl

theorem logAll_ok : ∀ (calls : List LogCall) (db : DBConnector), db.writable = true →
    logAll db calls =
      .ok { records := db.records ++ recordsFrom db.nextId calls,
            nextId := db.nextId + calls.length, writable := true }
  | [], db, hw => by
    cases db with
    | mk r n w =>
      simp only [DBConnector.writable] at hw
      subst hw
      simp only [logAll, List.foldlM, recordsFrom, List.append_nil, List.length_nil,
        Nat.add_zero]
      rfl
  | k :: ks, db, hw => by
    have ih := logAll_ok ks (db.append k.timestamp k.check_type k.result k.additional_params)
      (by simp [DBConnector.append, hw])
    simp only [logAll] at ih ⊢
    rw [List.foldlM_cons,
      show db.log k.timestamp k.check_type k.result k.additional_params =
        .ok (db.append k.timestamp k.check_type k.result k.additional_params) from by
          simp [DBConnector.log, hw],
      exceptBind_ok, ih]
    simp only [DBConnector.append, recordsFrom, mkRecord, List.length_cons,
      List.append_assoc, List.singleton_append, List.cons_append, Except.ok.injEq,
      DBConnector.mk.injEq, and_true, true_and]
    refine ⟨rfl, by omega⟩


theorem recordsFrom_length : ∀ (ks : List LogCall) (i : Nat),
    (recordsFrom i ks).length = ks.length
  | [], _ => rfl
  | _ :: ks, i => by simp [recordsFrom, recordsFrom_length ks (i + 1)]

theorem recordsFrom_getElem? : ∀ (ks : List LogCall) (i j : Nat),
    (recordsFrom i ks)[j]? = (ks[j]?).map (fun k => mkRecord (i + j) k)
  | [], i, j => by simp [recordsFrom]
  | k :: ks, i, 0 => by simp [recordsFrom]
  | k :: ks, i, j + 1 => by
    simp only [recordsFrom, List.getElem?_cons_succ]
    rw [recordsFrom_getElem? ks (i + 1) j]
    have hij : i + 1 + j = i + (j + 1) := by omega
    rw [hij]

theorem recordsFrom_id_lb : ∀ (ks : List LogCall) (i : Nat),
    ∀ r ∈ recordsFrom i ks, i ≤ r.id
  | [], i => by simp [recordsFrom]
  | k :: ks, i => by
    intro r hr
    rcases List.mem_cons.mp hr with h | h
    · subst h
      simp [mkRecord]
    · have := recordsFrom_id_lb ks (i + 1) r h
      omega

theorem recordsFrom_sorted : ∀ (ks : List LogCall) (i : Nat),
    List.Pairwise (fun a b => a.id < b.id) (recordsFrom i ks)
  | [], i => List.Pairwise.nil
  | k :: ks, i => by
    refine List.Pairwise.cons ?_ (recordsFrom_sorted ks (i + 1))
    intro r hr
    have := recordsFrom_id_lb ks (i + 1) r hr
    simp only [mkRecord]
    omega

theorem insertById_front (r : LogRecord) (rs : List LogRecord)
    (h : ∀ x ∈ rs, r.id < x.id) : insertById r rs = r :: rs := by
  cases rs with
  | nil => rfl
  | cons x xs =>
    have hx : r.id ≤ x.id := Nat.le_of_lt (h x (by simp))
    simp [insertById, hx]

theorem sortById_sorted : ∀ rs : List LogRecord,
    List.Pairwise (fun a b => a.id < b.id) rs → sortById rs = rs
  | [], _ => rfl
  | x :: xs, h => by
    obtain ⟨hx, hxs⟩ := List.pairwise_cons.mp h
    show insertById x (sortById xs) = x :: xs
    rw [sortById_sorted xs hxs, insertById_front x xs hx]


/-- C6: after any sequence of `log` calls against a fresh store, a full
retrieval (`fetch_all` / `print_all_logs`, which SELECT `ORDER BY id`)
returns exactly one record per call, in the order the calls were made,
the `j`-th retrieved record being the `j`-th call's data under the
strictly increasing identifiers 1, 2, 3, ...; retrieval from the empty
store yields the empty sequence, not an error. -/
theorem fetch_all_after_logs (calls : List LogCall) (db2 : DBConnector)
    (h : logAll DBConnector.empty calls = .ok db2) :
    db2.fetchAll = recordsFrom 1 calls
    ∧ db2.fetchAll.length = calls.length
    ∧ (∀ j : Nat, db2.fetchAll[j]? = (calls[j]?).map (fun k => mkRecord (1 + j) k))
    ∧ List.Pairwise (fun a b => a.id < b.id) db2.fetchAll
    ∧ DBConnector.empty.fetchAll = [] := by
  rw [logAll_ok calls DBConnector.empty rfl] at h
  injection h with h2
  subst h2
  have hs : DBConnector.fetchAll
      ⟨DBConnector.empty.records ++ recordsFrom DBConnector.empty.nextId calls,
       DBConnector.empty.nextId + calls.length, true⟩ = recordsFrom 1 calls := by
    simp only [DBConnector.fetchAll, DBConnector.empty, List.nil_append]
    exact sortById_sorted (recordsFrom 1 calls) (recordsFrom_sorted calls 1)
  refine ⟨hs, ?_, ?_, ?_, rfl⟩
  · rw [hs, recordsFrom_length]
  · intro j
    rw [hs, recordsFrom_getElem?]
  · rw [hs]
    exact recordsFrom_sorted calls 1

/-- C6 witness: the theorem applied to two concrete calls; the store
after them holds records with ids 1 and 2 in call order. -/
theorem fetch_all_after_logs_witness :
    DBConnector.fetchAll
        { records := recordsFrom 1
            [⟨"t1", "unique", true, none⟩,
             ⟨"t2", "not_null", false, some [("column", PValue.str "x")]⟩],
          nextId := 3, writable := true } =
      recordsFrom 1
        [⟨"t1", "unique", true, none⟩,
         ⟨"t2", "not_null", false, some [("column", PValue.str "x")]⟩]
    ∧ (DBConnector.fetchAll
        { records := recordsFrom 1
            [⟨"t1", "unique", true, none⟩,
             ⟨"t2", "not_null", false, some [("column", PValue.str "x")]⟩],
          nextId := 3, writable := true }).length =
      ([⟨"t1", "unique", true, none⟩,
        ⟨"t2", "not_null", false, some [("column", PValue.str "x")]⟩] : List LogCall).length
    ∧ (∀ j : Nat, (DBConnector.fetchAll
        { records := recordsFrom 1
            [⟨"t1", "unique", true, none⟩,
             ⟨"t2", "not_null", false, some [("column", PValue.str "x")]⟩],
          nextId := 3, writable := true })[j]? =
      (([⟨"t1", "unique", true, none⟩,
         ⟨"t2", "not_null", false, some [("column", PValue.str "x")]⟩] : List LogCall)[j]?).map
        (fun k => mkRecord (1 + j) k))
    ∧ List.Pairwise (fun a b => a.id < b.id)
        (DBConnector.fetchAll
          { records := recordsFrom 1
              [⟨"t1", "unique", true, none⟩,
               ⟨"t2", "not_null", false, some [("column", PValue.str "x")]⟩],
            nextId := 3, writable := true })
    ∧ DBConnector.empty.fetchAll = [] :=
  fetch_all_after_logs
    [⟨"t1", "unique", true, none⟩,
     ⟨"t2", "not_null", false, some [("column", PValue.str "x")]⟩] _ rfl


/-- C7 (amended): a `log` call with a non-empty `additional_params`
mapping appends one record whose persisted blob is exactly
`json.dumps` of the mapping, and `json.loads` of that blob (as
retrieval code would decode it) yields a structure equal to the one
passed in; an omitted mapping persists no blob (`None`), not an empty
encoding.  The empty mapping is the exception forced by the
counterexample: it also persists `None`. -/
theorem log_params_roundtrip (db : DBConnector) (now ct : String) (r : Bool) (ps : Params)
    (hw : db.writable = true) (hne : ps ≠ []) :
    db.log now ct r (some ps) = .ok (db.append now ct r (some ps))
    ∧ (db.append now ct r (some ps)).records.getLast? =
      some ⟨db.nextId, now, ct, if r then 1 else 0, some (jsonDumps ps)⟩
    ∧ jsonLoads (jsonDumps ps) = some ps
    ∧ paramsJson none = none := by
  refine ⟨?_, ?_, jsonLoads_jsonDumps ps, rfl⟩
  · simp [DBConnector.log, hw]
  · have hpj : paramsJson (some ps) = some (jsonDumps ps) := by
      have : ps.isEmpty = false := by
        cases ps with
        | nil => exact absurd rfl hne
        | cons a l => rfl
      simp [paramsJson, this]
    simp [DBConnector.append, hpj]

/-- C7 witness: the theorem applied to the two-entry mapping logged by
`is_column_enum`. -/
theorem log_params_roundtrip_witness :
    DBConnector.empty.log "t" "accepted_values" true
        (some [("column", PValue.str "status"), ("accepted_values", PValue.strList ["a", "b"])]) =
      .ok (DBConnector.empty.append "t" "accepted_values" true
        (some [("column", PValue.str "status"), ("accepted_values", PValue.strList ["a", "b"])]))
    ∧ (DBConnector.empty.append "t" "accepted_values" true
        (some [("column", PValue.str "status"),
               ("accepted_values", PValue.strList ["a", "b"])])).records.getLast? =
      some ⟨DBConnector.empty.nextId, "t", "accepted_values", if true then 1 else 0,
        some (jsonDumps [("column", PValue.str "status"),
                         ("accepted_values", PValue.strList ["a", "b"])])⟩
    ∧ jsonLoads (jsonDumps [("column", PValue.str "status"),
        ("accepted_values", PValue.strList ["a", "b"])]) =
      some [("column", PValue.str "status"), ("accepted_values", PValue.strList ["a", "b"])]
    ∧ paramsJson none = none :=
  log_params_roundtrip DBConnector.empty "t" "accepted_values" true
    [("column", PValue.str "status"), ("accepted_values", PValue.strList ["a", "b"])]
    rfl (by simp)

/-- C7 counterexample: logging the empty mapping persists no blob at
all — the record's `additional_params` is NULL, indistinguishable from
an omitted argument — so no persisted serialized blob exists that
could deserialize back to the empty mapping the caller passed. -/
theorem log_empty_params_counterexample :
    (DBConnector.empty.log "t0" "unique" true (some [])).map
        (fun db2 => db2.records.map (fun rec => rec.additional_params)) = .ok [none]
    ∧ paramsJson (some ([] : Params)) = paramsJson none :=
  ⟨rfl, rfl⟩

/-- C10: a `log` call with an empty `additional_params` mapping is
indistinguishable from one with the argument omitted: Python's
truthiness test `if additional_params` treats both alike, the persisted
blob is NULL in both cases, and the resulting stores are equal, so no
retrieval can tell them apart. -/
theorem log_empty_params_eq_none (db : DBConnector) (now ct : String) (r : Bool) :
    db.log now ct r (some []) = db.log now ct r none
    ∧ paramsJson (some ([] : Params)) = none := by
  refine ⟨?_, rfl⟩
  simp [DBConnector.log, DBConnector.append, paramsJson]


theorem dispatchCheck_none_iff (db : DBConnector) (now : String) (df : Dataset String)
    (ck : CheckCfg) : dispatchCheck db now df ck = none ↔ isKnownCheck ck = false := by
  unfold dispatchCheck isKnownCheck
  by_cases h1 : ck.ctype = "not_null" <;> by_cases h2 : ck.ctype = "unique" <;>
    by_cases h3 : ck.ctype = "accepted_values" <;> simp [h1, h2, h3]

theorem runChecksLoop_filter (now : String) (df : Dataset String) :
    ∀ (checks : List CheckCfg) (db : DBConnector),
    runChecksLoop now df db checks =
      (runChecksLoop now df db (checks.filter isKnownCheck)).map
        (fun r => (r.1, r.2.1,
          ((checks.filter (fun ck => !(isKnownCheck ck))).map
            (fun ck => diagMsg ck.ctype)) ++ r.2.2))
  | [], db => by
    simp [runChecksLoop, List.filter_nil, Except.map]
  | ck :: rest, db => by
    by_cases hk : isKnownCheck ck = true
    · have hfilter : (ck :: rest).filter isKnownCheck = ck :: rest.filter isKnownCheck := by
        simp [List.filter_cons, hk]
      have hfilter2 : (ck :: rest).filter (fun ck => !(isKnownCheck ck)) =
          rest.filter (fun ck => !(isKnownCheck ck)) := by
        simp [List.filter_cons, hk]
      obtain ⟨⟨res, kind⟩, hdc⟩ : ∃ p, dispatchCheck db now df ck = some p := by
        cases hdc : dispatchCheck db now df ck with
        | none =>
          have := (dispatchCheck_none_iff db now df ck).mp hdc
          rw [hk] at this
          cases this
        | some p => exact ⟨p, rfl⟩
      rw [hfilter, hfilter2]
      cases res with
      | error e =>
        have hL : runChecksLoop now df db (ck :: rest) = .error e := by
          simp only [runChecksLoop, hdc]
        have hR : runChecksLoop now df db (ck :: rest.filter isKnownCheck) = .error e := by
          simp only [runChecksLoop, hdc]
        rw [hL, hR]
        rfl
      | ok bd =>
        obtain ⟨passed, db2⟩ := bd
        have hL : runChecksLoop now df db (ck :: rest) =
            (runChecksLoop now df db2 rest).map (fun r =>
              ((kind, ck.column, if passed then "PASS" else "FAIL") :: r.1, r.2.1, r.2.2)) := by
          simp only [runChecksLoop, hdc]
        have hR : runChecksLoop now df db (ck :: rest.filter isKnownCheck) =
            (runChecksLoop now df db2 (rest.filter isKnownCheck)).map (fun r =>
              ((kind, ck.column, if passed then "PASS" else "FAIL") :: r.1, r.2.1, r.2.2)) := by
          simp only [runChecksLoop, hdc]
        rw [hL, hR, runChecksLoop_filter now df rest db2, exceptMap_map, exceptMap_map]
        congr 1
    · have hk' : isKnownCheck ck = false := by simpa using hk
      have hfilter : (ck :: rest).filter isKnownCheck = rest.filter isKnownCheck := by
        simp [List.filter_cons, hk']
      have hfilter2 : (ck :: rest).filter (fun ck => !(isKnownCheck ck)) =
          ck :: rest.filter (fun ck => !(isKnownCheck ck)) := by
        simp [List.filter_cons, hk']
      have hdc : dispatchCheck db now df ck = none := (dispatchCheck_none_iff db now df ck).mpr hk'
      rw [hfilter, hfilter2]
      have hL : runChecksLoop now df db (ck :: rest) =
          (runChecksLoop now df db rest).map (fun r =>
            (r.1, r.2.1, diagMsg ck.ctype :: r.2.2)) := by
        simp only [runChecksLoop, hdc]
      rw [hL, runChecksLoop_filter now df rest db, exceptMap_map]
      congr 1


theorem runChecksLoop_known_msgs (now : String) (df : Dataset String) :
    ∀ (checks : List CheckCfg) (db : DBConnector)
      (rows : List (String × String × String)) (db2 : DBConnector) (msgs : List String),
    (∀ ck ∈ checks, isKnownCheck ck = true) →
    runChecksLoop now df db checks = .ok (rows, db2, msgs) → msgs = []
  | [], db, rows, db2, msgs, hall, h => by
    simp only [runChecksLoop] at h
    injection h with h2
    exact (congrArg (fun t => t.2.2) h2).symm
  | ck :: rest, db, rows, db2, msgs, hall, h => by
    have hk := hall ck (by simp)
    obtain ⟨⟨res, kind⟩, hdc⟩ : ∃ p, dispatchCheck db now df ck = some p := by
      cases hdc : dispatchCheck db now df ck with
      | none =>
        have := (dispatchCheck_none_iff db now df ck).mp hdc
        rw [hk] at this
        cases this
      | some p => exact ⟨p, rfl⟩
    cases res with
    | error e =>
      have hL : runChecksLoop now df db (ck :: rest) = .error e := by
        simp only [runChecksLoop, hdc]
      rw [hL] at h
      cases h
    | ok bd =>
      obtain ⟨passed, db3⟩ := bd
      have hL : runChecksLoop now df db (ck :: rest) =
          (runChecksLoop now df db3 rest).map (fun r =>
            ((kind, ck.column, if passed then "PASS" else "FAIL") :: r.1, r.2.1, r.2.2)) := by
        simp only [runChecksLoop, hdc]
      rw [hL] at h
      cases hr : runChecksLoop now df db3 rest with
      | error e =>
        rw [hr] at h
        cases h
      | ok r =>
        obtain ⟨rows3, db4, msgs3⟩ := r
        rw [hr] at h
        injection h with h2
        have hmsgs : msgs = msgs3 := (congrArg (fun t => t.2.2) h2).symm
        rw [hmsgs]
        exact runChecksLoop_known_msgs now df rest db3 rows3 db4 msgs3
          (fun c hc => hall c (by simp [hc])) hr

/-- C9: for every configuration, the run-checks loop treats entries of
unknown rule kind as pure skips: the computed result rows, the final
store and the error behavior equal those of the configuration with the
unknown entries removed, each unknown entry contributes exactly its
diagnostic line, and the returned all-passed verdict is `all` of the
recognized checks' PASS statuses only. -/
theorem run_checks_unknown_skipped (db : DBConnector) (now : String) (df : Dataset String)
    (checks : List CheckCfg) :
    ((run_checks db now df checks).map (fun r => (r.1, r.2.1, r.2.2.1)) =
      (run_checks db now df (checks.filter isKnownCheck)).map (fun r => (r.1, r.2.1, r.2.2.1)))
    ∧ (∀ b rows db2 msgs, run_checks db now df checks = .ok (b, rows, db2, msgs) →
        msgs = (checks.filter (fun ck => !(isKnownCheck ck))).map (fun ck => diagMsg ck.ctype)
        ∧ b = rows.all (fun row => row.2.2 == "PASS")) := by
  constructor
  · show ((runChecksLoop now df db checks).map _).map _ = _
    rw [runChecksLoop_filter now df checks db, exceptMap_map, exceptMap_map]
    show _ = ((runChecksLoop now df db (checks.filter isKnownCheck)).map _).map _
    rw [exceptMap_map]
    congr 1
  · intro b rows db2 msgs h
    rw [show run_checks db now df checks = (runChecksLoop now df db checks).map
        (fun r => (r.1.all (fun row => row.2.2 == "PASS"), r)) from rfl,
      runChecksLoop_filter now df checks db, exceptMap_map] at h
    cases hr : runChecksLoop now df db (checks.filter isKnownCheck) with
    | error e =>
      rw [hr] at h
      cases h
    | ok r =>
      obtain ⟨rows2, db3, msgs2⟩ := r
      rw [hr] at h
      injection h with h2
      have hm2 : msgs2 = [] := runChecksLoop_known_msgs now df
        (checks.filter isKnownCheck) db rows2 db3 msgs2
        (fun c hc => (List.mem_filter.mp hc).2) hr
      have hb : b = rows2.all (fun row => row.2.2 == "PASS") :=
        (congrArg (fun t => t.1) h2).symm
      have hrows : rows = rows2 := (congrArg (fun t => t.2.1) h2).symm
      have hmsgs : msgs =
          (checks.filter (fun ck => !(isKnownCheck ck))).map (fun ck => diagMsg ck.ctype)
            ++ msgs2 := (congrArg (fun t => t.2.2.2) h2).symm
      refine ⟨?_, ?_⟩
      · rw [hmsgs, hm2, List.append_nil]
      · rw [hb, hrows]


/-- C9 witness: a config with an unknown `weird` entry followed by a
`not_null` check; the unknown entry yields exactly its diagnostic and
the verdict is computed over the recognized check alone. -/
theorem run_checks_unknown_skipped_witness :
    ((run_checks DBConnector.empty "t" (⟨[("id", [some "1"])]⟩ : Dataset String)
        [⟨"weird", "id", []⟩, ⟨"not_null", "id", []⟩]).map (fun r => (r.1, r.2.1, r.2.2.1)) =
      (run_checks DBConnector.empty "t" (⟨[("id", [some "1"])]⟩ : Dataset String)
        ([⟨"weird", "id", []⟩, ⟨"not_null", "id", []⟩].filter isKnownCheck)).map
          (fun r => (r.1, r.2.1, r.2.2.1)))
    ∧ ([diagMsg "weird"] =
        (([⟨"weird", "id", []⟩, ⟨"not_null", "id", []⟩] : List CheckCfg).filter
          (fun ck => !(isKnownCheck ck))).map (fun ck => diagMsg ck.ctype)
      ∧ true = ([("not_null", "id", "PASS")] :
          List (String × String × String)).all (fun row => row.2.2 == "PASS")) :=
  ⟨(run_checks_unknown_skipped DBConnector.empty "t" ⟨[("id", [some "1"])]⟩
      [⟨"weird", "id", []⟩, ⟨"not_null", "id", []⟩]).1,
   (run_checks_unknown_skipped DBConnector.empty "t" ⟨[("id", [some "1"])]⟩
      [⟨"weird", "id", []⟩, ⟨"not_null", "id", []⟩]).2 true [("not_null", "id", "PASS")]
      ⟨[⟨1, "t", "not_null", 1, some (jsonDumps [("column", PValue.str "id")])⟩], 2, true⟩
      [diagMsg "weird"] (by rfl)⟩

end DQC
